import Mathlib

/-
Shallow embedding of the ArchFlow multi-tenant project-management backend.

Server side (part_006 route handlers, server/storage.ts, shared/schema.ts):
the database is a record of row lists; each storage method of
DatabaseStorage becomes a pure function on that record, and each Express
handler becomes a function from principal, parsed body and database to a
response paired with the next database.  The drizzle schema's foreign-key
action onDelete set-null on tasks.task_status_id is part of the embedding
of deleteTaskStatus, because the database engine applies it atomically
with the row deletion.

Client side (client/src/components/tasks/kanban-board.tsx): the board
component's drag-and-drop handlers become pure functions over a board
state holding the task mirror and the currently dragged task.
-/

namespace ArchFlow

/-- User roles.  The users.role column is the enum
['admin', 'architect', 'intern', 'financial', 'marketing'] (schema.ts);
on top of that the login route can mint a principal whose role string is
"superadmin" (part_006, POST /api/auth/login). -/
inductive Role where
  | admin
  | architect
  | intern
  | financial
  | marketing
  | superadmin
deriving DecidableEq, Repr

/-- The string stored in the role field / carried by the JWT. -/
def Role.str : Role → String
  | .admin => "admin"
  | .architect => "architect"
  | .intern => "intern"
  | .financial => "financial"
  | .marketing => "marketing"
  | .superadmin => "superadmin"

/-- The authenticated request actor (req.user as consumed by the
middleware in part_006): role may be absent (checkRole tests
!req.user.role), isSuperAdmin is the bypass flag, officeId is the
tenant. -/
structure Principal where
  role : Option Role
  isSuperAdmin : Bool
  officeId : Option Nat
deriving DecidableEq, Repr

/-- Outcome of the checkRole middleware: either pass to the handler or
answer 403 with a message. -/
inductive GuardDecision where
  | allow
  | deny (message : String)
deriving DecidableEq, Repr

/-- RBAC middleware from part_006 lines 66-80: deny when no user or no
role, let a super admin bypass the role check, otherwise allow exactly
when the role is in the allowed list. -/
def checkRole (allowedRoles : List String) (user : Option Principal) : GuardDecision :=
  match user with
  | none => .deny "Forbidden: Role not available"
  | some u =>
    match u.role with
    | none => .deny "Forbidden: Role not available"
    | some r =>
      if u.isSuperAdmin then .allow
      else if allowedRoles.contains r.str then .allow
      else .deny "Forbidden: Insufficient permissions"

/-- The guarded mutations and tenant-scoped reads registered in
registerRoutes (part_006); one constructor per route that carries a
checkRole guard. -/
inductive Action where
  | getClients
  | createClient
  | updateClient
  | deleteClient
  | getProjects
  | createProject
  | updateProject
  | deleteProject
  | uploadProjectFile
  | getProjectFiles
  | downloadFile
  | deleteFile
  | createTaskStatusA
  | updateTaskStatusA
  | deleteTaskStatusA
  | getTasks
  | createTaskA
  | updateTaskA
  | deleteTaskA
  | getTransactions
  | createTransactionA
  | updateTransactionA
  | deleteTransactionA
  | getUsers
  | createUserA
  | updateUserA
  | deleteUserA
deriving DecidableEq, Repr

/-- The static permission table: for each guarded route, the literal
role list passed to checkRole in part_006. -/
def permittedRoles : Action → List String
  | .getClients => ["admin", "architect", "intern", "financial", "marketing"]
  | .createClient => ["admin", "architect"]
  | .updateClient => ["admin", "architect"]
  | .deleteClient => ["admin", "architect"]
  | .getProjects => ["admin", "architect", "intern", "financial", "marketing"]
  | .createProject => ["admin", "architect"]
  | .updateProject => ["admin", "architect"]
  | .deleteProject => ["admin"]
  | .uploadProjectFile => ["admin", "architect"]
  | .getProjectFiles => ["admin", "architect", "intern", "financial", "marketing"]
  | .downloadFile => ["admin", "architect", "intern", "financial", "marketing"]
  | .deleteFile => ["admin", "architect"]
  | .createTaskStatusA => ["admin", "architect"]
  | .updateTaskStatusA => ["admin", "architect"]
  | .deleteTaskStatusA => ["admin", "architect"]
  | .getTasks => ["admin", "architect", "intern", "financial", "marketing"]
  | .createTaskA => ["admin", "architect", "intern"]
  | .updateTaskA => ["admin", "architect", "intern"]
  | .deleteTaskA => ["admin", "architect"]
  | .getTransactions => ["admin", "financial"]
  | .createTransactionA => ["admin", "financial"]
  | .updateTransactionA => ["admin", "financial"]
  | .deleteTransactionA => ["admin", "financial"]
  | .getUsers => ["admin", "architect", "intern", "financial", "marketing"]
  | .createUserA => ["admin"]
  | .updateUserA => ["admin"]
  | .deleteUserA => ["admin"]

/-- users table row (schema.ts): role is notNull with default, officeId
and isActive are nullable (isActive defaults to true). -/
structure UserRow where
  id : Nat
  username : String
  password : String
  role : Role
  officeId : Option Nat
  isActive : Option Bool
deriving DecidableEq, Repr

/-- task_statuses table row (schema.ts): office-scoped named column with
an integer status_order (notNull, default 0) and an optional color. -/
structure TaskStatusRow where
  id : Nat
  officeId : Nat
  name : String
  color : Option String
  order : Int
deriving DecidableEq, Repr

/-- task_priority_enum from schema.ts. -/
inductive TaskPriority where
  | low
  | medium
  | high
deriving DecidableEq, Repr

/-- tasks table row (schema.ts): taskStatusId is a nullable reference to
task_statuses with onDelete set-null; officeId is notNull. -/
structure TaskRow where
  id : Nat
  title : String
  description : Option String
  taskStatusId : Option Nat
  priority : TaskPriority
  assignedTo : Option Nat
  projectId : Option Nat
  parentTaskId : Option Nat
  officeId : Nat
deriving DecidableEq, Repr

/-- transaction_type_enum from schema.ts. -/
inductive TxType where
  | income
  | expense
  | investment
deriving DecidableEq, Repr

/-- transactions table row (schema.ts): amount is decimal(10,2) notNull,
modelled as a rational; date is a timestamp modelled as an integer. -/
structure TransactionRow where
  id : Nat
  type : TxType
  category : String
  amount : ℚ
  description : Option String
  date : Int
  projectId : Option Nat
  officeId : Nat
deriving DecidableEq, Repr

/-- The database: one list per table touched by the claims, plus the
next serial id handed out on insert. -/
structure Db where
  users : List UserRow
  statuses : List TaskStatusRow
  tasks : List TaskRow
  transactions : List TransactionRow
  nextId : Nat
deriving DecidableEq, Repr

/-- Insert a status row keeping rows with a smaller or equal
status_order in front: used to embed the SQL orderBy(taskStatuses.order)
ascending read. -/
def insertByOrder (s : TaskStatusRow) : List TaskStatusRow → List TaskStatusRow
  | [] => [s]
  | t :: ts => if s.order ≤ t.order then s :: t :: ts else t :: insertByOrder s ts

/-- Sort status rows ascending by status_order (insertion sort). -/
def sortByOrder : List TaskStatusRow → List TaskStatusRow
  | [] => []
  | s :: ss => insertByOrder s (sortByOrder ss)

/-- DatabaseStorage.getTaskStatusesByOfficeId (storage.ts lines
418-424): select statuses where officeId matches, ordered ascending by
status_order. -/
def getTaskStatusesByOfficeId (officeId : Nat) (db : Db) : List TaskStatusRow :=
  sortByOrder (db.statuses.filter (fun s => decide (s.officeId = officeId)))

/-- DatabaseStorage.getTaskStatusById (storage.ts lines 426-432): select
the status where both id and officeId match. -/
def getTaskStatusById (statusId officeId : Nat) (db : Db) : Option TaskStatusRow :=
  db.statuses.find? (fun s => decide (s.id = statusId ∧ s.officeId = officeId))

/-- DatabaseStorage.createTaskStatus (storage.ts lines 410-416): plain
insert returning the new row; no duplicate-name check, and the
office_id_name_unique_idx of schema.ts is a non-unique index, so the
database does not reject duplicates either. -/
def createTaskStatusStore (row : TaskStatusRow) (db : Db) : TaskStatusRow × Db :=
  (row, { db with statuses := db.statuses ++ [row], nextId := db.nextId + 1 })

/-- The database after the status delete goes through: the matching
status rows are gone and — by the schema's onDelete set-null on
tasks.task_status_id — every task that referenced the deleted status id
has its reference cleared. -/
def cascadeDelete (statusId officeId : Nat) (db : Db) : Db :=
  { db with
    statuses := db.statuses.filter
      (fun s => decide (¬(s.id = statusId ∧ s.officeId = officeId)))
    tasks := db.tasks.map
      (fun t => if t.taskStatusId = some statusId then { t with taskStatusId := none } else t) }

/-- DatabaseStorage.deleteTaskStatus (storage.ts lines 443-451) plus the
schema's onDelete set-null on tasks.task_status_id: delete the statuses
matching both id and officeId, report whether any row was deleted, and
when one was, clear taskStatusId on every task that referenced it. -/
def deleteTaskStatusStore (statusId officeId : Nat) (db : Db) : Bool × Db :=
  let matched := db.statuses.filter (fun s => decide (s.id = statusId ∧ s.officeId = officeId))
  if matched.isEmpty then (false, db)
  else (true, cascadeDelete statusId officeId db)

/-- A parsed PUT /api/tasks body (insertTaskSchema applied partially):
each field may be absent; taskStatusId may additionally be an explicit
null. -/
structure TaskPatch where
  title : Option String
  description : Option (Option String)
  taskStatusId : Option (Option Nat)
  priority : Option TaskPriority
deriving DecidableEq, Repr

/-- The zod refinement on a patch: when taskStatusId is given non-null it
must be a positive integer (insertTaskSchema, schema.ts line 401). -/
def taskPatchValid (p : TaskPatch) : Bool :=
  match p.taskStatusId with
  | some (some sid) => decide (0 < sid)
  | _ => true

/-- drizzle update(...).set(patch): fields present in the patch replace
the stored ones, absent fields keep their value. -/
def applyTaskPatch (t : TaskRow) (p : TaskPatch) : TaskRow :=
  { t with
    title := p.title.getD t.title
    description := p.description.getD t.description
    taskStatusId := p.taskStatusId.getD t.taskStatusId
    priority := p.priority.getD t.priority }

/-- DatabaseStorage.updateTask (storage.ts lines 273-280): update the
task whose id matches; no officeId in the predicate. -/
def updateTaskStore (id : Nat) (p : TaskPatch) (db : Db) : Db :=
  { db with tasks := db.tasks.map (fun t => if t.id = id then applyTaskPatch t p else t) }

/-- DatabaseStorage.deleteTask (storage.ts lines 282-284): delete the
task whose id matches; no officeId in the predicate. -/
def deleteTaskStore (id : Nat) (db : Db) : Db :=
  { db with tasks := db.tasks.filter (fun t => decide (t.id ≠ id)) }

/-- DatabaseStorage.deleteUser (storage.ts lines 153-158): a soft
delete, updating only isActive to false on the user whose id matches. -/
def deleteUserStore (id : Nat) (db : Db) : Db :=
  { db with
    users := db.users.map (fun u => if u.id = id then { u with isActive := some false } else u) }

/-- DatabaseStorage.getUsersByOffice (storage.ts lines 160-165): users
of the office whose isActive equals true. -/
def getUsersByOffice (officeId : Nat) (db : Db) : List UserRow :=
  db.users.filter (fun u => decide (u.officeId = some officeId ∧ u.isActive = some true))

/-- DatabaseStorage.createTransaction (storage.ts lines 295-301): plain
insert. -/
def createTransactionStore (row : TransactionRow) (db : Db) : Db :=
  { db with transactions := db.transactions ++ [row], nextId := db.nextId + 1 }

/-- An HTTP outcome: a success status code, or an error status code with
the message object sent back. -/
inductive Resp where
  | ok (code : Nat)
  | fail (code : Nat) (message : String)
deriving DecidableEq, Repr

/-- A parsed POST /api/tasks body (insertTaskSchema): title required,
taskStatusId optional/nullable (none covers both), the rest optional. -/
structure NewTaskBody where
  title : String
  description : Option String
  taskStatusId : Option Nat
  priority : TaskPriority
  assignedTo : Option Nat
  projectId : Option Nat
  parentTaskId : Option Nat
deriving DecidableEq, Repr

/-- zod refinement for the create body: a given taskStatusId must be
positive (schema.ts line 401). -/
def newTaskBodyValid (b : NewTaskBody) : Bool :=
  match b.taskStatusId with
  | some sid => decide (0 < sid)
  | none => true

/-- Build the inserted task row from a validated body
(DatabaseStorage.createTask, storage.ts lines 259-271). -/
def mkTaskRow (id : Nat) (b : NewTaskBody) (statusId : Option Nat) (officeId : Nat) : TaskRow :=
  { id := id
    title := b.title
    description := b.description
    taskStatusId := statusId
    priority := b.priority
    assignedTo := b.assignedTo
    projectId := b.projectId
    parentTaskId := b.parentTaskId
    officeId := officeId }

/-- POST /api/tasks handler (part_006 lines 586-621): after validateBody,
require an office; a truthy taskStatusId is validated against the
caller's office via getTaskStatusById; otherwise the first status of the
office's ordered list is assigned, or the request fails when the office
has no statuses; finally the task is inserted and 201 returned. -/
def createTaskRoute (user : Principal) (body : NewTaskBody) (db : Db) : Resp × Db :=
  if ¬ newTaskBodyValid body then (.fail 400 "Validation failed", db)
  else
    match user.officeId with
    | none => (.fail 400 "User is not associated with an office.", db)
    | some officeId =>
      match body.taskStatusId with
      | some sid =>
        if 0 < sid then
          match getTaskStatusById sid officeId db with
          | none => (.fail 400 "Invalid task status ID.", db)
          | some _ =>
            (.ok 201,
              { db with
                tasks := db.tasks ++ [mkTaskRow db.nextId body (some sid) officeId]
                nextId := db.nextId + 1 })
        else
          match getTaskStatusesByOfficeId officeId db with
          | [] =>
            (.fail 400 "No task statuses configured for this office. Please create statuses first.", db)
          | s :: _ =>
            (.ok 201,
              { db with
                tasks := db.tasks ++ [mkTaskRow db.nextId body (some s.id) officeId]
                nextId := db.nextId + 1 })
      | none =>
        match getTaskStatusesByOfficeId officeId db with
        | [] =>
          (.fail 400 "No task statuses configured for this office. Please create statuses first.", db)
        | s :: _ =>
          (.ok 201,
            { db with
              tasks := db.tasks ++ [mkTaskRow db.nextId body (some s.id) officeId]
              nextId := db.nextId + 1 })

/-- PUT /api/tasks/:id handler (part_006 lines 623-648): after
validateBody, require an office; a truthy patch taskStatusId is checked
against the caller's office; then updateTask runs with no office check
on the task itself (the TODO on line 639 records the missing check). -/
def putTaskRoute (user : Principal) (taskId : Nat) (patch : TaskPatch) (db : Db) : Resp × Db :=
  if ¬ taskPatchValid patch then (.fail 400 "Validation failed", db)
  else
    match user.officeId with
    | none => (.fail 400 "User is not associated with an office.", db)
    | some officeId =>
      match patch.taskStatusId with
      | some (some sid) =>
        if 0 < sid then
          match getTaskStatusById sid officeId db with
          | none => (.fail 400 "Invalid task status ID.", db)
          | some _ => (.ok 200, updateTaskStore taskId patch db)
        else (.ok 200, updateTaskStore taskId patch db)
      | _ => (.ok 200, updateTaskStore taskId patch db)

/-- PUT /api/tasks/:id with its checkRole(['admin','architect','intern'])
guard in front. -/
def putTaskEndpoint (user : Principal) (taskId : Nat) (patch : TaskPatch) (db : Db) : Resp × Db :=
  match checkRole ["admin", "architect", "intern"] (some user) with
  | .deny m => (.fail 403 m, db)
  | .allow => putTaskRoute user taskId patch db

/-- DELETE /api/tasks/:id handler (part_006 lines 650-660): deletes by
id with no office check at all (the TODO on line 653 records the missing
check). -/
def deleteTaskRoute (_user : Principal) (taskId : Nat) (db : Db) : Resp × Db :=
  (.ok 200, deleteTaskStore taskId db)

/-- DELETE /api/tasks/:id with its checkRole(['admin','architect'])
guard in front. -/
def deleteTaskEndpoint (user : Principal) (taskId : Nat) (db : Db) : Resp × Db :=
  match checkRole ["admin", "architect"] (some user) with
  | .deny m => (.fail 403 m, db)
  | .allow => deleteTaskRoute user taskId db

/-- A POST /api/task_statuses body before zod parsing: name required,
color optional, order optional (the schema gives it default 0). -/
structure StatusBody where
  name : String
  color : Option String
  order : Option Int
deriving DecidableEq, Repr

/-- insertTaskStatusSchema refinement (schema.ts lines 408-416): name
must be non-empty; the order default 0 is applied at parse time and is
embedded at the use site with getD 0. -/
def statusBodyValid (b : StatusBody) : Bool :=
  decide (1 ≤ b.name.length)

/-- POST /api/task_statuses handler (part_006 lines 482-501): after
validateBody, require an office, then insert the status with the
caller's office; there is no duplicate-name check and the insert cannot
fail, so the row is always created and 201 returned. -/
def createTaskStatusRoute (user : Principal) (body : StatusBody) (db : Db) : Resp × Db :=
  if ¬ statusBodyValid body then (.fail 400 "Validation failed", db)
  else
    match user.officeId with
    | none => (.fail 400 "User is not associated with an office.", db)
    | some officeId =>
      let row : TaskStatusRow :=
        { id := db.nextId
          officeId := officeId
          name := body.name
          color := body.color
          order := body.order.getD 0 }
      (.ok 201, (createTaskStatusStore row db).snd)

/-- A POST /api/transactions body after type coercion
(insertTransactionSchema): type enum, category, coerced numeric amount,
coerced date, optional description/projectId. -/
structure TxBody where
  type : TxType
  category : String
  amount : ℚ
  description : Option String
  date : Int
  projectId : Option Nat
deriving DecidableEq, Repr

/-- insertTransactionSchema refinement (schema.ts line 430): the coerced
amount must be strictly positive. -/
def txBodyValid (b : TxBody) : Bool :=
  decide (0 < b.amount)

/-- POST /api/transactions handler (part_006 lines 677-694): after
validateBody, require an office, then insert the transaction with the
caller's office and answer 200 with the row. -/
def createTransactionRoute (user : Principal) (body : TxBody) (db : Db) : Resp × Db :=
  if ¬ txBodyValid body then (.fail 400 "Validation failed", db)
  else
    match user.officeId with
    | none => (.fail 400 "No office associated", db)
    | some officeId =>
      let row : TransactionRow :=
        { id := db.nextId
          type := body.type
          category := body.category
          amount := body.amount
          description := body.description
          date := body.date
          projectId := body.projectId
          officeId := officeId }
      (.ok 200, createTransactionStore row db)

/-- A task as held by the kanban board client (kanban-board.tsx): id and
the status string the board groups by. -/
structure ClientTask where
  id : Nat
  title : String
  status : String
deriving DecidableEq, Repr

/-- The body of the PUT /api/tasks request fired by
updateTaskMutation.mutationFn. -/
structure MoveRequest where
  taskId : Nat
  status : String
deriving DecidableEq, Repr

/-- The board component's local state: the tasks mirror (the tasks prop)
and the draggedTask useState cell. -/
structure BoardState where
  tasks : List ClientTask
  draggedTask : Option ClientTask
deriving DecidableEq, Repr

/-- handleDragStart (kanban-board.tsx lines 193-196): record the dragged
task. -/
def handleDragStart (task : ClientTask) (st : BoardState) : BoardState :=
  { st with draggedTask := some task }

/-- handleDrop (kanban-board.tsx lines 203-214): when a task is being
dragged and the target column differs from its status, fire the
updateTaskMutation request; then clear draggedTask.  The tasks mirror is
not touched. -/
def handleDrop (newStatus : String) (st : BoardState) : Option MoveRequest × BoardState :=
  let request : Option MoveRequest :=
    match st.draggedTask with
    | some t => if t.status ≠ newStatus then some { taskId := t.id, status := newStatus } else none
    | none => none
  (request, { st with draggedTask := none })

/-- updateTaskMutation onError (kanban-board.tsx lines 94-100): only a
toast is shown; the board state is unchanged. -/
def onMoveTaskError (st : BoardState) : BoardState :=
  st

/-- An architect of office 1, not a super admin. -/
def exArchitect1 : Principal :=
  { role := some Role.architect, isSuperAdmin := false, officeId := some 1 }

/-- An admin of office 1, not a super admin. -/
def exAdmin1 : Principal :=
  { role := some Role.admin, isSuperAdmin := false, officeId := some 1 }

/-- A task that belongs to office 2. -/
def exC1Task : TaskRow :=
  { id := 42, title := "secret", description := none, taskStatusId := none,
    priority := .medium, assignedTo := none, projectId := none, parentTaskId := none,
    officeId := 2 }

/-- A database holding only office 2's task 42. -/
def exC1Db : Db :=
  { users := [], statuses := [], tasks := [exC1Task], transactions := [], nextId := 100 }

/-- A patch that renames a task and touches nothing else. -/
def exC1Patch : TaskPatch :=
  { title := some "hijacked", description := none, taskStatusId := none, priority := none }

/-- One status of office 1 referenced by one task of office 1. -/
def exC3Db : Db :=
  { users := []
    statuses := [{ id := 1, officeId := 1, name := "Todo", color := none, order := 0 }]
    tasks := [{ id := 10, title := "A", description := none, taskStatusId := some 1,
                priority := .medium, assignedTo := none, projectId := none,
                parentTaskId := none, officeId := 1 }]
    transactions := []
    nextId := 11 }

/-- Office 1 with two statuses whose status_order values arrive unsorted. -/
def exC4Db : Db :=
  { users := []
    statuses := [{ id := 2, officeId := 1, name := "Doing", color := none, order := 5 },
                 { id := 3, officeId := 1, name := "Todo", color := none, order := 1 }]
    tasks := []
    transactions := []
    nextId := 4 }

/-- A create-task body with no explicit status. -/
def exC4Body : NewTaskBody :=
  { title := "X", description := none, taskStatusId := none, priority := .medium,
    assignedTo := none, projectId := none, parentTaskId := none }

/-- A database whose only status with id 5 belongs to office 2. -/
def exC5Db : Db :=
  { users := []
    statuses := [{ id := 5, officeId := 2, name := "B-col", color := none, order := 0 }]
    tasks := [{ id := 7, title := "X", description := none, taskStatusId := none,
                priority := .medium, assignedTo := none, projectId := none,
                parentTaskId := none, officeId := 1 }]
    transactions := []
    nextId := 8 }

/-- A patch that moves a task to status 5. -/
def exC5Patch : TaskPatch :=
  { title := none, description := none, taskStatusId := some (some 5), priority := none }

/-- Office 1 already has a status named Todo. -/
def exC6Db : Db :=
  { users := []
    statuses := [{ id := 1, officeId := 1, name := "Todo", color := none, order := 0 }]
    tasks := [], transactions := [], nextId := 2 }

/-- A create-status body reusing the name Todo. -/
def exC6Body : StatusBody :=
  { name := "Todo", color := none, order := none }

/-- Office 1 has one status with status_order 5 (so max existing order
is 5). -/
def exC7Db : Db :=
  { users := []
    statuses := [{ id := 1, officeId := 1, name := "Todo", color := none, order := 5 }]
    tasks := [], transactions := [], nextId := 2 }

/-- A create-status body with the order field omitted. -/
def exC7Body : StatusBody :=
  { name := "Doing", color := none, order := none }

/-- One task sitting in the todo column of the client board. -/
def exBoardTask : ClientTask :=
  { id := 1, title := "T", status := "todo" }

/-- A board whose mirror holds that one task, nothing dragged yet. -/
def exBoard : BoardState :=
  { tasks := [exBoardTask], draggedTask := none }

/-- Two active users of office 1. -/
def exC9Alice : UserRow :=
  { id := 1, username := "alice", password := "h1", role := .admin,
    officeId := some 1, isActive := some true }

/-- Second active user of office 1. -/
def exC9Bob : UserRow :=
  { id := 2, username := "bob", password := "h2", role := .architect,
    officeId := some 1, isActive := some true }

/-- A database with the two users and a task assigned to the first. -/
def exC9Db : Db :=
  { users := [exC9Alice, exC9Bob]
    statuses := []
    tasks := [{ id := 20, title := "A", description := none, taskStatusId := none,
                priority := .medium, assignedTo := some 1, projectId := none,
                parentTaskId := none, officeId := 1 }]
    transactions := []
    nextId := 21 }

/-- A transaction body with a negative amount. -/
def exTxBody : TxBody :=
  { type := .income, category := "fee", amount := -5, description := none,
    date := 0, projectId := none }

/-- An empty database for the transaction witness. -/
def exC10Db : Db :=
  { users := [], statuses := [], tasks := [], transactions := [], nextId := 1 }

end ArchFlow

namespace ArchFlow

/-- Membership is preserved by the ordered insert. -/
theorem mem_insertByOrder {x s : TaskStatusRow} {l : List TaskStatusRow} :
    x ∈ insertByOrder s l ↔ x = s ∨ x ∈ l := by
  induction l with
  | nil => simp [insertByOrder]
  | cons t ts ih =>
    simp only [insertByOrder]
    split
    · simp [List.mem_cons]
    · simp only [List.mem_cons, ih]
      tauto

/-- Membership is preserved by the status_order sort. -/
theorem mem_sortByOrder {x : TaskStatusRow} {l : List TaskStatusRow} :
    x ∈ sortByOrder l ↔ x ∈ l := by
  induction l with
  | nil => simp [sortByOrder]
  | cons s ss ih => simp [sortByOrder, mem_insertByOrder, ih]

/-- The ordered insert never returns the empty list. -/
theorem insertByOrder_ne_nil (s : TaskStatusRow) (l : List TaskStatusRow) :
    insertByOrder s l ≠ [] := by
  cases l with
  | nil => simp [insertByOrder]
  | cons t ts =>
    simp only [insertByOrder]
    split <;> simp

/-- The sort only returns the empty list on the empty list. -/
theorem sortByOrder_eq_nil {l : List TaskStatusRow} (h : sortByOrder l = []) : l = [] := by
  cases l with
  | nil => rfl
  | cons s ss => exact absurd h (insertByOrder_ne_nil s (sortByOrder ss))

/-- The head of an ordered insert is below the inserted element and the
previous head. -/
theorem head_insertByOrder_le (s : TaskStatusRow) (l : List TaskStatusRow) (h : TaskStatusRow)
    (hh : (insertByOrder s l).head? = some h) :
    h.order ≤ s.order ∧ ∀ t, l.head? = some t → h.order ≤ t.order := by
  cases l with
  | nil =>
    simp only [insertByOrder, List.head?] at hh
    cases hh
    exact ⟨le_refl _, by intro t ht; cases ht⟩
  | cons t ts =>
    simp only [insertByOrder] at hh
    split at hh
    · simp only [List.head?] at hh
      cases hh
      refine ⟨le_refl _, ?_⟩
      intro t' ht'
      simp only [List.head?, Option.some.injEq] at ht'
      subst ht'
      assumption
    · simp only [List.head?] at hh
      cases hh
      refine ⟨le_of_not_le (by assumption), ?_⟩
      intro t' ht'
      simp only [List.head?, Option.some.injEq] at ht'
      subst ht'
      exact le_refl _

/-- The head of the sorted status list has the least status_order. -/
theorem sortByOrder_head_min (l : List TaskStatusRow) (h : TaskStatusRow)
    (hh : (sortByOrder l).head? = some h) :
    ∀ x ∈ l, h.order ≤ x.order := by
  induction l generalizing h with
  | nil => simp [sortByOrder] at hh
  | cons s ss ih =>
    intro x hx
    simp only [sortByOrder] at hh
    have hle := head_insertByOrder_le s (sortByOrder ss) h hh
    rcases List.mem_cons.mp hx with rfl | hx'
    · exact hle.1
    · cases hs : sortByOrder ss with
      | nil =>
        have : ss = [] := sortByOrder_eq_nil hs
        subst this
        cases hx'
      | cons m ms =>
        have hm : (sortByOrder ss).head? = some m := by rw [hs]; rfl
        exact le_trans (hle.2 m hm) (ih m hm x hx')

/-- Claim C2: for every (action, role) pair the guard's decision equals
membership of the role in the static permission table for that action; a
principal with isSuperAdmin set is always allowed; in particular
createProject is permitted exactly to admin and architect and deleteUser
exactly to admin. -/
theorem roleGate_matches_table (a : Action) (u : Principal) (r : Role)
    (h : u.role = some r) :
    (checkRole (permittedRoles a) (some u) = GuardDecision.allow ↔
      (u.isSuperAdmin = true ∨ (permittedRoles a).contains r.str = true))
    ∧ permittedRoles Action.createProject = ["admin", "architect"]
    ∧ permittedRoles Action.deleteUserA = ["admin"] := by
  refine ⟨?_, rfl, rfl⟩
  simp only [checkRole, h]
  by_cases hs : u.isSuperAdmin <;>
    by_cases hc : (permittedRoles a).contains r.str = true <;>
      simp [hs, hc]

/-- Witness for C2: a non-superadmin admin is allowed to delete users,
by the table. -/
theorem roleGate_matches_table_witness :
    checkRole (permittedRoles Action.deleteUserA)
      (some { role := some Role.admin, isSuperAdmin := false, officeId := some 1 }) =
      GuardDecision.allow :=
  ((roleGate_matches_table Action.deleteUserA
      { role := some Role.admin, isSuperAdmin := false, officeId := some 1 }
      Role.admin rfl).1).mpr (Or.inr (by decide))

/-- Claim C1 (code bug evidence): an architect of office 1, passing the
route guards, deletes office 2's task 42 with a 200 answer, and renames
it through PUT with a 200 answer — the handlers and storage methods
carry no office check on the task, so cross-tenant writes succeed
instead of answering NotFound or AuthorizationDenied. -/
theorem crossTenant_task_mutation_succeeds :
    deleteTaskEndpoint exArchitect1 42 exC1Db = (Resp.ok 200, { exC1Db with tasks := [] })
    ∧ (putTaskEndpoint exArchitect1 42 exC1Patch exC1Db).fst = Resp.ok 200
    ∧ ((putTaskEndpoint exArchitect1 42 exC1Patch exC1Db).snd).tasks
        = [{ exC1Task with title := "hijacked" }] := by
  decide

/-- Claim C3: after a successful deleteTaskStatus, every task that
referenced the deleted status has its reference cleared, no task is
deleted and none is moved to a different status, and the status no
longer appears in the tenant's ordered status list. -/
theorem deleteTaskStatus_cascades_to_null (db : Db) (sid oid : Nat)
    (h : (deleteTaskStatusStore sid oid db).fst = true) :
    (∀ t ∈ ((deleteTaskStatusStore sid oid db).snd).tasks, t.taskStatusId ≠ some sid)
    ∧ ((deleteTaskStatusStore sid oid db).snd).tasks.map TaskRow.id = db.tasks.map TaskRow.id
    ∧ (∀ t2 ∈ ((deleteTaskStatusStore sid oid db).snd).tasks, ∃ t ∈ db.tasks,
        t2.id = t.id ∧ t2.officeId = t.officeId ∧ t2.title = t.title ∧
        ((t.taskStatusId = some sid ∧ t2.taskStatusId = none) ∨ t2.taskStatusId = t.taskStatusId))
    ∧ (∀ s ∈ getTaskStatusesByOfficeId oid ((deleteTaskStatusStore sid oid db).snd), s.id ≠ sid) := by
  have hsnd : (deleteTaskStatusStore sid oid db).snd = cascadeDelete sid oid db := by
    unfold deleteTaskStatusStore at h ⊢
    by_cases hm :
        (db.statuses.filter (fun s => decide (s.id = sid ∧ s.officeId = oid))).isEmpty = true
    · rw [if_pos hm] at h
      exact Bool.noConfusion h
    · rw [if_neg hm]
  rw [hsnd]
  simp only [cascadeDelete]
  refine ⟨?_, ?_, ?_, ?_⟩
  · intro t ht
    rcases List.mem_map.mp ht with ⟨t0, _, rfl⟩
    by_cases hts : t0.taskStatusId = some sid <;> simp [hts]
  · rw [List.map_map]
    apply List.map_congr_left
    intro t _
    by_cases hts : t.taskStatusId = some sid <;> simp [hts]
  · intro t2 ht2
    rcases List.mem_map.mp ht2 with ⟨t0, ht0, rfl⟩
    refine ⟨t0, ht0, ?_⟩
    by_cases hts : t0.taskStatusId = some sid <;> simp [hts]
  · intro s hs
    unfold getTaskStatusesByOfficeId at hs
    have hmem := mem_sortByOrder.mp hs
    have h1 := (List.mem_filter.mp hmem).1
    have h2 := (List.mem_filter.mp hmem).2
    have h3 := (List.mem_filter.mp h1).2
    simp only [decide_eq_true_eq] at h2 h3
    intro hid
    exact h3 ⟨hid, h2⟩

/-- Witness for C3 at a concrete database: the cascade keeps the task
ids intact after deleting the referenced status. -/
theorem deleteTaskStatus_cascades_to_null_witness :
    ((deleteTaskStatusStore 1 1 exC3Db).snd).tasks.map TaskRow.id = exC3Db.tasks.map TaskRow.id :=
  (deleteTaskStatus_cascades_to_null exC3Db 1 1 (by decide)).2.1

/-- Claim C4: creating a task without an explicit status in a tenant
whose ordered status list is non-empty inserts the task with the first
listed status, which has the least status_order among the tenant's
statuses; in a tenant with no statuses the creation fails and the
database is unchanged. -/
theorem createTask_default_status (user : Principal) (body : NewTaskBody) (db : Db) (oid : Nat)
    (hoff : user.officeId = some oid) (hsid : body.taskStatusId = none) :
    (∀ s rest, getTaskStatusesByOfficeId oid db = s :: rest →
      (createTaskRoute user body db).fst = Resp.ok 201
      ∧ ((createTaskRoute user body db).snd).tasks
          = db.tasks ++ [mkTaskRow db.nextId body (some s.id) oid]
      ∧ ∀ s2 ∈ db.statuses, s2.officeId = oid → s.order ≤ s2.order)
    ∧ (getTaskStatusesByOfficeId oid db = [] →
      (createTaskRoute user body db).fst =
        Resp.fail 400 "No task statuses configured for this office. Please create statuses first."
      ∧ (createTaskRoute user body db).snd = db) := by
  constructor
  · intro s rest hl
    have hmin : ∀ s2 ∈ db.statuses, s2.officeId = oid → s.order ≤ s2.order := by
      intro s2 hs2 ho
      have hh : (sortByOrder (db.statuses.filter (fun x => decide (x.officeId = oid)))).head?
          = some s := by
        unfold getTaskStatusesByOfficeId at hl
        rw [hl]
        rfl
      exact sortByOrder_head_min _ s hh s2 (List.mem_filter.mpr ⟨hs2, by simp [ho]⟩)
    refine ⟨?_, ?_, hmin⟩ <;>
      simp [createTaskRoute, newTaskBodyValid, hsid, hoff, hl]
  · intro hl
    constructor <;>
      simp [createTaskRoute, newTaskBodyValid, hsid, hoff, hl]

/-- Witness for C4 at a concrete database: the default status is the
one with the least status_order (id 3, order 1), not the one listed
first in the table (order 5). -/
theorem createTask_default_status_witness :
    (createTaskRoute exArchitect1 exC4Body exC4Db).fst = Resp.ok 201
    ∧ ((createTaskRoute exArchitect1 exC4Body exC4Db).snd).tasks
        = exC4Db.tasks ++ [mkTaskRow exC4Db.nextId exC4Body (some 3) 1] :=
  ⟨((createTask_default_status exArchitect1 exC4Body exC4Db 1 rfl rfl).1
      { id := 3, officeId := 1, name := "Todo", color := none, order := 1 }
      [{ id := 2, officeId := 1, name := "Doing", color := none, order := 5 }]
      (by decide)).1,
   ((createTask_default_status exArchitect1 exC4Body exC4Db 1 rfl rfl).1
      { id := 3, officeId := 1, name := "Todo", color := none, order := 1 }
      [{ id := 2, officeId := 1, name := "Doing", color := none, order := 5 }]
      (by decide)).2.1⟩

/-- Claim C5: updating a task with a target status id that no status of
the caller's tenant carries (it does not exist, or belongs to another
tenant) fails with the invalid-status message and leaves the database —
in particular the task's status — unchanged. -/
theorem putTask_invalid_status_rejected (user : Principal) (taskId sid : Nat) (patch : TaskPatch)
    (db : Db) (oid : Nat)
    (hoff : user.officeId = some oid)
    (hp : patch.taskStatusId = some (some sid))
    (hpos : 0 < sid)
    (hforeign : ∀ s ∈ db.statuses, s.id = sid → s.officeId ≠ oid) :
    putTaskRoute user taskId patch db = (Resp.fail 400 "Invalid task status ID.", db) := by
  have hfind : getTaskStatusById sid oid db = none := by
    unfold getTaskStatusById
    rw [List.find?_eq_none]
    intro s hsmem
    simp only [decide_eq_true_eq]
    exact fun hand => hforeign s hsmem hand.1 hand.2
  simp [putTaskRoute, taskPatchValid, hp, hpos, hoff, hfind]

/-- Witness for C5: moving office 1's task 7 to status 5 of office 2 is
rejected and the database is untouched. -/
theorem putTask_invalid_status_rejected_witness :
    putTaskRoute exArchitect1 7 exC5Patch exC5Db
      = (Resp.fail 400 "Invalid task status ID.", exC5Db) :=
  putTask_invalid_status_rejected exArchitect1 7 5 exC5Patch exC5Db 1 rfl rfl
    (by decide) (by decide)

/-- Claim C6 (code bug evidence): creating a status whose name office 1
already uses is answered 201 and inserts a second row — neither the
handler nor the schema (whose name index is non-unique) rejects the
duplicate. -/
theorem duplicate_status_name_accepted :
    (createTaskStatusRoute exAdmin1 exC6Body exC6Db).fst = Resp.ok 201
    ∧ ((createTaskStatusRoute exAdmin1 exC6Body exC6Db).snd).statuses.map TaskStatusRow.name
        = ["Todo", "Todo"]
    ∧ (((createTaskStatusRoute exAdmin1 exC6Body exC6Db).snd).statuses.filter
        (fun s => decide (s.officeId = 1 ∧ s.name = "Todo"))).length = 2 := by
  decide

/-- Counterexample to C7: office 1's statuses have max status_order 5,
yet a creation with order omitted assigns 0, not 5 + 1. -/
theorem statusOrder_not_max_plus_one :
    ((createTaskStatusRoute exAdmin1 exC7Body exC7Db).snd).statuses.map TaskStatusRow.order
        = [5, 0]
    ∧ (0 : Int) ≠ 5 + 1 := by
  decide

/-- Claim C7 as amended: creating a workflow status with the order field
omitted always assigns order 0 — the zod schema default — whether or not
the tenant already has statuses; max(existing order) + 1 is never
computed. -/
theorem statusOrder_default_zero (user : Principal) (body : StatusBody) (db : Db) (oid : Nat)
    (hoff : user.officeId = some oid) (hord : body.order = none)
    (hname : 1 ≤ body.name.length) :
    (createTaskStatusRoute user body db).fst = Resp.ok 201
    ∧ ((createTaskStatusRoute user body db).snd).statuses
        = db.statuses ++
          [{ id := db.nextId, officeId := oid, name := body.name,
             color := body.color, order := 0 }] := by
  constructor <;>
    simp [createTaskStatusRoute, statusBodyValid, hname, hoff, createTaskStatusStore, hord]

/-- Witness for C7 as amended, at the counterexample's database. -/
theorem statusOrder_default_zero_witness :
    (createTaskStatusRoute exAdmin1 exC7Body exC7Db).fst = Resp.ok 201 :=
  (statusOrder_default_zero exAdmin1 exC7Body exC7Db 1 rfl rfl (by decide)).1

/-- Counterexample to C8: a drop that fires a real move request leaves
the tasks mirror identical to its pre-gesture value, so the mirror is
not mutated immediately on drop, contrary to the claim's
presupposition. -/
theorem drop_does_not_mutate_mirror :
    (handleDrop "done" (handleDragStart exBoardTask exBoard)).fst
      = some { taskId := 1, status := "done" }
    ∧ ((handleDrop "done" (handleDragStart exBoardTask exBoard)).snd).tasks = exBoard.tasks := by
  decide

/-- Claim C8 as amended: the board applies no optimistic mutation — the
drop handler leaves the tasks mirror untouched and only fires the
request, and the failure handler only shows a toast — so after a
rejected moveTask the mirror equals its pre-gesture snapshot. -/
theorem board_mirror_unchanged_after_failed_move (st : BoardState) (task : ClientTask)
    (newStatus : String) :
    ((handleDrop newStatus (handleDragStart task st)).snd).tasks = st.tasks
    ∧ (onMoveTaskError ((handleDrop newStatus (handleDragStart task st)).snd)).tasks
        = st.tasks := by
  exact ⟨rfl, rfl⟩

/-- Claim C9: deleteUser is a soft delete — the user list keeps the same
ids, tasks (hence assignments) are untouched, every surviving row agrees
with the old one on every field except that the deleted id's isActive
becomes false, and getUsersByOffice never returns the deleted id nor any
user whose isActive is not true. -/
theorem deleteUser_soft_delete (db : Db) (uid : Nat) :
    ((deleteUserStore uid db).users.map UserRow.id = db.users.map UserRow.id)
    ∧ (deleteUserStore uid db).tasks = db.tasks
    ∧ (∀ u2 ∈ (deleteUserStore uid db).users, ∃ u ∈ db.users,
        u2.id = u.id ∧ u2.username = u.username ∧ u2.password = u.password
        ∧ u2.role = u.role ∧ u2.officeId = u.officeId
        ∧ ((u.id = uid ∧ u2.isActive = some false) ∨ u2 = u))
    ∧ (∀ oid : Nat, ∀ u ∈ getUsersByOffice oid (deleteUserStore uid db),
        u.id ≠ uid ∧ u.isActive = some true) := by
  refine ⟨?_, rfl, ?_, ?_⟩
  · simp only [deleteUserStore, List.map_map]
    apply List.map_congr_left
    intro u _
    by_cases h : u.id = uid <;> simp [h]
  · intro u2 hu2
    rcases List.mem_map.mp hu2 with ⟨u, hu, rfl⟩
    refine ⟨u, hu, ?_⟩
    by_cases h : u.id = uid <;> simp [h]
  · intro oid u hu
    have hmem := List.mem_filter.mp hu
    have hact := hmem.2
    simp only [decide_eq_true_eq] at hact
    rcases List.mem_map.mp hmem.1 with ⟨u0, _, rfl⟩
    by_cases h : u0.id = uid
    · rw [if_pos h] at hact
      exact absurd hact.2 (by simp)
    · rw [if_neg h] at hact ⊢
      exact ⟨h, hact.2⟩

/-- Witness for C9 at a concrete database: tasks survive the soft
delete, and the remaining active colleague keeps appearing with a
different id. -/
theorem deleteUser_soft_delete_witness :
    ((deleteUserStore 1 exC9Db).tasks = exC9Db.tasks)
    ∧ (exC9Bob.id ≠ 1 ∧ exC9Bob.isActive = some true) :=
  ⟨(deleteUser_soft_delete exC9Db 1).2.1,
   (deleteUser_soft_delete exC9Db 1).2.2.2 1 exC9Bob (by decide)⟩

/-- Claim C10: a transaction body whose coerced amount is not strictly
positive is rejected with 400 by validation and the database is
unchanged; every transaction the route stores either pre-existed or has
a strictly positive amount. -/
theorem transaction_positive_amount (user : Principal) (body : TxBody) (db : Db) :
    (body.amount ≤ 0 →
      createTransactionRoute user body db = (Resp.fail 400 "Validation failed", db))
    ∧ (∀ t ∈ ((createTransactionRoute user body db).snd).transactions,
        t ∈ db.transactions ∨ 0 < t.amount) := by
  constructor
  · intro hle
    have hv : txBodyValid body = false := by
      simp [txBodyValid, not_lt.mpr hle]
    simp [createTransactionRoute, hv]
  · intro t ht
    by_cases hv : txBodyValid body = true
    · have hpos : 0 < body.amount := by
        simpa [txBodyValid] using hv
      cases hoff : user.officeId with
      | none =>
        simp [createTransactionRoute, hv, hoff] at ht
        exact Or.inl ht
      | some oid =>
        simp [createTransactionRoute, hv, hoff, createTransactionStore] at ht
        rcases ht with h1 | h2
        · exact Or.inl h1
        · right
          subst h2
          exact hpos
    · have hv' : txBodyValid body = false := by
        simpa using hv
      simp [createTransactionRoute, hv'] at ht
      exact Or.inl ht

/-- Witness for C10: a body with amount -5 is rejected and stores
nothing. -/
theorem transaction_positive_amount_witness :
    createTransactionRoute exAdmin1 exTxBody exC10Db
      = (Resp.fail 400 "Validation failed", exC10Db) :=
  (transaction_positive_amount exAdmin1 exTxBody exC10Db).1 (by norm_num [exTxBody])

end ArchFlow
